import Mathlib

/-!
Shallow embedding of `src/xeno-canto_request.py` (repository
`limenodot/animal-speech-understanding`).

The script has three stages:
* `get_recordings` paginates the xeno-canto search API, accumulating the
  `recordings` arrays of each page;
* `save_recordings_to_csv` flattens each record into a fixed 43-column row
  and writes the table with pandas `to_csv`;
* `download_audio_files` reads the table back with pandas `read_csv` and
  downloads every row's `file` URL to `{output_dir}/{file-name}`.

The embedding models Python values loosely typed (`Val`), a record as an
association list, the filesystem as the set of existing directories, and the
network as an explicit response environment.  Exceptions are modelled with
`Except`: a caught `requests.exceptions.RequestException` is distinguished
from uncaught exceptions (`KeyError`, `TypeError`, pandas `EmptyDataError`,
`OSError`), which appear as `Except.error` outcomes of the whole call.
-/

namespace XC

/-- A loosely typed JSON-ish value, as far as the script inspects values:
strings, lists of strings (the `also` field) and string-to-string mappings
(the nested `sono` / `osci` image-url mappings). -/
inductive Val where
  | s (str : String)
  | l (elems : List String)
  | d (entries : List (String × String))
deriving DecidableEq, Repr

/-- A recording JSON object: a mapping from field names to values.
`record.get(k)` returns the first binding of `k`, or `None`. -/
def Record := List (String × Val)

instance : DecidableEq Record := by
  unfold Record
  infer_instance

/-- Python `record.get(key)`: first binding of `key`, or `None`. -/
def rget : Record → String → Option Val
  | [], _ => none
  | (k, v) :: rest, key => if k = key then some v else rget rest key

/-- Python truthiness of the values the script tests with `if record.get(k)`:
empty strings, lists and dicts are falsy, everything else truthy. -/
def truthy : Val → Bool
  | .s str => !str.isEmpty
  | .l elems => !elems.isEmpty
  | .d entries => !entries.isEmpty

/-- Whether evaluating `record[key].get(sub) if record.get(key) else None`
raises: it raises `AttributeError` exactly when `record.get(key)` is truthy
but not a mapping (no `.get` attribute). -/
def nestedOk (record : Record) (key : String) : Bool :=
  match rget record key with
  | none => true
  | some v => if truthy v then (match v with | Val.d _ => true | _ => false) else true

/-- The value of `record[key].get(sub) if record.get(key) else None`
in the non-raising cases. -/
def nestedCell (record : Record) (key sub : String) : Option Val :=
  match rget record key with
  | none => none
  | some v =>
    if truthy v then
      match v with
      | Val.d entries => (entries.lookup sub).map Val.s
      | _ => none
    else none

/-- Python `", ".join(record.get("also", []))`: joins a list of strings with
a comma and a space; an absent field joins the default empty list; a string
joins its characters; a dict joins its keys. -/
def alsoCell (record : Record) : String :=
  match rget record "also" with
  | none => ""
  | some (Val.l elems) => String.intercalate ", " elems
  | some (Val.s str) => String.intercalate ", " (str.toList.map (fun c => String.mk [c]))
  | some (Val.d entries) => String.intercalate ", " (entries.map Prod.fst)

/-- The `flattened_record` dict literal of `save_recordings_to_csv`
(lines 57-101), keys in source order, `None` cells as `none`. -/
def flattenedRow (record : Record) : List (String × Option Val) :=
  [("id", rget record "id"),
   ("gen", rget record "gen"),
   ("sp", rget record "sp"),
   ("ssp", rget record "ssp"),
   ("group", rget record "group"),
   ("en", rget record "en"),
   ("rec", rget record "rec"),
   ("cnt", rget record "cnt"),
   ("loc", rget record "loc"),
   ("lat", rget record "lat"),
   ("lng", rget record "lng"),
   ("alt", rget record "alt"),
   ("type", rget record "type"),
   ("sex", rget record "sex"),
   ("stage", rget record "stage"),
   ("method", rget record "method"),
   ("url", rget record "url"),
   ("file", rget record "file"),
   ("file-name", rget record "file-name"),
   ("sono_small", nestedCell record "sono" "small"),
   ("sono_med", nestedCell record "sono" "med"),
   ("sono_large", nestedCell record "sono" "large"),
   ("sono_full", nestedCell record "sono" "full"),
   ("osci_small", nestedCell record "osci" "small"),
   ("osci_med", nestedCell record "osci" "med"),
   ("osci_large", nestedCell record "osci" "large"),
   ("lic", rget record "lic"),
   ("q", rget record "q"),
   ("length", rget record "length"),
   ("time", rget record "time"),
   ("date", rget record "date"),
   ("uploaded", rget record "uploaded"),
   ("also", some (Val.s (alsoCell record))),
   ("rmk", rget record "rmk"),
   ("bird-seen", rget record "bird-seen"),
   ("animal-seen", rget record "animal-seen"),
   ("playback-used", rget record "playback-used"),
   ("temp", rget record "temp"),
   ("regnr", rget record "regnr"),
   ("auto", rget record "auto"),
   ("dvc", rget record "dvc"),
   ("mic", rget record "mic"),
   ("smp", rget record "smp")]

/-- The fixed column set of the flattened table, in source order. -/
def declaredCols : List String :=
  ["id", "gen", "sp", "ssp", "group", "en", "rec", "cnt", "loc", "lat",
   "lng", "alt", "type", "sex", "stage", "method", "url", "file", "file-name",
   "sono_small", "sono_med", "sono_large", "sono_full",
   "osci_small", "osci_med", "osci_large",
   "lic", "q", "length", "time", "date", "uploaded", "also", "rmk",
   "bird-seen", "animal-seen", "playback-used", "temp", "regnr", "auto",
   "dvc", "mic", "smp"]

/-- The columns produced by a plain `record.get(field)` call (all columns
except the derived `sono_*` / `osci_*` columns and the joined `also`). -/
def scalarKeys : List String :=
  ["id", "gen", "sp", "ssp", "group", "en", "rec", "cnt", "loc", "lat",
   "lng", "alt", "type", "sex", "stage", "method", "url", "file", "file-name",
   "lic", "q", "length", "time", "date", "uploaded", "rmk",
   "bird-seen", "animal-seen", "playback-used", "temp", "regnr", "auto",
   "dvc", "mic", "smp"]

/-- Evaluating the `flattened_record` dict literal for one record: raises
`AttributeError` iff `sono` or `osci` is present, truthy and not a mapping. -/
def flatten_record (record : Record) : Except String (List (String × Option Val)) :=
  if nestedOk record "sono" && nestedOk record "osci" then .ok (flattenedRow record)
  else .error "AttributeError"

/-- The `for record in recordings` loop building `flattened_data`:
the first raising record aborts the whole call. -/
def flattenRecords : List Record → Except String (List (List (String × Option Val)))
  | [] => .ok []
  | record :: rest =>
    match flatten_record record with
    | .error e => .error e
    | .ok row =>
      match flattenRecords rest with
      | .error e => .error e
      | .ok rows => .ok (row :: rows)

/-- The content of the CSV file written by `df.to_csv(filename, index=False)`:
a header line naming the columns, then one line per row.  pandas derives the
columns of `pd.DataFrame(list_of_dicts)` from the dict keys; for the empty
list there are no columns at all (the written file is a single empty line). -/
structure CsvFile where
  header : List String
  rows : List (List (Option Val))
deriving DecidableEq, Repr

/-- `pd.DataFrame(flattened_data)` followed by `to_csv`: columns are the
(common) key list of the row dicts, empty when there are no rows. -/
def mkDataFrame (rows : List (List (String × Option Val))) : CsvFile :=
  { header := (rows.head?.map (fun row => row.map Prod.fst)).getD []
    rows := rows.map (fun row => row.map Prod.snd) }

/-- The filesystem, as far as the script observes it: the set of existing
directories. -/
structure FS where
  dirs : List String
deriving DecidableEq, Repr

/-- Splitting a character list at `'/'` (the segments of a POSIX path). -/
def splitSlashAux : List Char → List (List Char)
  | [] => [[]]
  | c :: rest =>
    match splitSlashAux rest with
    | [] => if c = '/' then [[], []] else [[c]]
    | g :: gs => if c = '/' then [] :: g :: gs else (c :: g) :: gs

/-- The `'/'`-separated segments of a path (as `path.split("/")`). -/
def slashParts (s : String) : List String :=
  (splitSlashAux s.data).map String.mk

/-- All ancestor paths of `p` (what `os.makedirs` creates, parents included). -/
def pathPrefixes (p : String) : List String :=
  let parts := slashParts p
  (List.range parts.length).map (fun i => String.intercalate "/" (parts.take (i + 1)))

/-- `os.makedirs(p, ...)`: the directory and all its missing parents exist
afterwards. -/
def mkdirs (fs : FS) (p : String) : FS :=
  ⟨fs.dirs ++ pathPrefixes p⟩

/-- `os.path.dirname`, for slash-separated paths. -/
def dirName (path : String) : String :=
  let parts := slashParts path
  if parts.length ≤ 1 then "" else String.intercalate "/" parts.dropLast

/-- Whether `open(filename, "w")` (inside `df.to_csv`) succeeds: the
containing directory must exist (the empty dirname is the working
directory). -/
def dirOk (fs : FS) (filename : String) : Bool :=
  dirName filename = "" || fs.dirs.contains (dirName filename)

deriving instance DecidableEq for Except

/-- Outcome of one `save_recordings_to_csv` call: the filesystem afterwards,
the written table content (if the write happened), the printed lines, and
whether an exception escaped. -/
structure SaveResult where
  fs : FS
  written : Option CsvFile
  logs : List String
  outcome : Except String Unit
deriving DecidableEq, Repr

/-- `save_recordings_to_csv(recordings, filename)` (lines 44-106): ensures
the fixed directory `"xeno-canto"` exists, flattens the records (an
`AttributeError` escapes), builds the DataFrame and writes it; `to_csv`
raises `OSError` when the directory of `filename` does not exist. -/
def save_recordings_to_csv (recordings : List Record) (filename : String)
    (fs : FS) : SaveResult :=
  let fs1 := if fs.dirs.contains "xeno-canto" then fs else mkdirs fs "xeno-canto"
  match flattenRecords recordings with
  | .error e => ⟨fs1, none, [], .error e⟩
  | .ok rows =>
    let df := mkDataFrame rows
    if dirOk fs1 filename then
      ⟨fs1, some df, ["Recordings is saved into " ++ filename], .ok ()⟩
    else
      ⟨fs1, none, [], .error "OSError"⟩

/-- Response of `requests.get(file_url)` followed by `raise_for_status()`:
either the body bytes, or a `requests.exceptions.RequestException` (network
failure, non-2xx status, or an invalid URL value such as `nan`). -/
inductive DlResp where
  | ok (content : String)
  | reqErr (msg : String)

/-- `row[c]` on a pandas row: `KeyError` when the column does not exist,
otherwise the cell (missing/NaN as `none`). -/
def getCol (header : List String) (row : List (Option Val)) (c : String) :
    Except String (Option Val) :=
  match header.findIdx? (fun h => h == c) with
  | none => .error ("KeyError: " ++ c)
  | some i => .ok ((row.get? i).getD none)

/-- `os.path.join` for POSIX paths. -/
def pathJoin (a b : String) : String :=
  if b.data.head? = some '/' then b
  else if a = "" then b
  else if a.data.getLast? = some '/' then a ++ b
  else a ++ "/" ++ b

/-- The per-row download loop (lines 122-135).  Returns the written files
(path, content), the printed failure lines, and the outcome: `row["file"]` /
`row["file-name"]` on a missing column raises `KeyError`;
`os.path.join(output_dir, file_name)` on a non-string (a NaN cell) raises
`TypeError`; both escape, since the `except` clause catches only
`requests.exceptions.RequestException`. -/
def dlLoop (env : Option Val → DlResp) (output_dir : String)
    (header : List String) :
    List (List (Option Val)) → List (String × String) → List String →
    List (String × String) × List String × Except String Unit
  | [], ws, ls => (ws, ls, .ok ())
  | row :: rest, ws, ls =>
    match getCol header row "file" with
    | .error e => (ws, ls, .error e)
    | .ok file_url =>
      match getCol header row "file-name" with
      | .error e => (ws, ls, .error e)
      | .ok cell =>
        match cell with
        | some (Val.s file_name) =>
          match env file_url with
          | .ok content =>
            dlLoop env output_dir header rest
              (ws ++ [(pathJoin output_dir file_name, content)]) ls
          | .reqErr msg =>
            dlLoop env output_dir header rest ws
              (ls ++ ["Failed to download " ++ file_name ++ ": " ++ msg])
        | _ => (ws, ls, .error "TypeError: join argument must be str")

/-- Outcome of one `download_audio_files` call. -/
structure DownloadResult where
  fs : FS
  writes : List (String × String)
  logs : List String
  outcome : Except String Unit

/-- `download_audio_files(csv_filename, output_dir)` (lines 108-135):
`pd.read_csv` raises `EmptyDataError` on a file with no columns; otherwise
the output directory is created (parents included) when missing, and the
rows are processed in order. -/
def download_audio_files (csv : CsvFile) (output_dir : String)
    (env : Option Val → DlResp) (fs : FS) : DownloadResult :=
  if csv.header.isEmpty then ⟨fs, [], [], .error "EmptyDataError"⟩
  else
    let fs1 := if fs.dirs.contains output_dir then fs else mkdirs fs output_dir
    let r := dlLoop env output_dir csv.header csv.rows [] []
    ⟨fs1, r.1, r.2.1, r.2.2⟩

/-- The expected written files of a download run: one per row whose
`file-name` is a string and whose URL fetch succeeds. -/
def dlWrites (env : Option Val → DlResp) (output_dir : String)
    (header : List String) (rows : List (List (Option Val))) :
    List (String × String) :=
  rows.filterMap (fun row =>
    match getCol header row "file", getCol header row "file-name" with
    | .ok u, .ok (some (Val.s nm)) =>
      match env u with
      | .ok c => some (pathJoin output_dir nm, c)
      | .reqErr _ => none
    | _, _ => none)

/-- The expected failure lines of a download run: one per row whose
`file-name` is a string and whose URL fetch fails. -/
def dlLogs (env : Option Val → DlResp) (header : List String)
    (rows : List (List (Option Val))) : List String :=
  rows.filterMap (fun row =>
    match getCol header row "file", getCol header row "file-name" with
    | .ok u, .ok (some (Val.s nm)) =>
      match env u with
      | .ok _ => none
      | .reqErr msg => some ("Failed to download " ++ nm ++ ": " ++ msg)
    | _, _ => none)

/-- Response of one page request in `get_recordings`: either a
`requests.exceptions.RequestException` (network failure, non-2xx status via
`raise_for_status`, or a JSON decode failure of `response.json()`), or a
parsed JSON object with optional `recordings` and `numPages` fields. -/
inductive PageResponse where
  | requestError (msg : String)
  | json (recs : Option (List Record)) (numPages : Option Int)

/-- Outcome of one `get_recordings` call: the pages requested (in order),
the printed lines, and either the returned list or an escaped exception. -/
structure FetchResult where
  requested : List Nat
  logs : List String
  outcome : Except String (List Record)

/-- The `while page <= max_pages` loop of `get_recordings` (lines 24-40),
fuel-indexed: the fuel equals the number of remaining pages the loop
condition allows, so fuel 0 is exactly the loop condition turning false.
A `RequestException` is caught, printed, and breaks the loop; a JSON body
missing `numPages` raises `KeyError` (uncaught); otherwise the page's
records are appended and the loop breaks when `page >= int(data["numPages"])`. -/
def fetchGo (env : Nat → PageResponse) :
    Nat → Nat → List Record → List Nat → List String → FetchResult
  | 0, _, acc, reqs, logs => ⟨reqs, logs, .ok acc⟩
  | fuel + 1, page, acc, reqs, logs =>
    match env page with
    | .requestError msg =>
      ⟨reqs ++ [page], logs ++ ["An error occurred: " ++ msg], .ok acc⟩
    | .json recs nump =>
      let acc2 := acc ++ recs.getD []
      match nump with
      | none => ⟨reqs ++ [page], logs, .error "KeyError: numPages"⟩
      | some k =>
        if (page : Int) ≥ k then ⟨reqs ++ [page], logs, .ok acc2⟩
        else fetchGo env fuel (page + 1) acc2 (reqs ++ [page]) logs

/-- `get_recordings(query, max_pages)` (lines 10-42).  The query string only
selects the response environment, so the environment stands for the pair. -/
def get_recordings (env : Nat → PageResponse) (max_pages : Int) : FetchResult :=
  fetchGo env max_pages.toNat 1 [] [] []

/-- The records a page contributes to the accumulator:
`data.get("recordings", [])` for JSON pages, nothing otherwise. -/
def pageRecs (env : Nat → PageResponse) (page : Nat) : List Record :=
  match env page with
  | .json recs _ => recs.getD []
  | _ => []

/-- Concatenation of the records of a list of pages. -/
def pagesRecords (env : Nat → PageResponse) : List Nat → List Record
  | [] => []
  | p :: ps => pageRecs env p ++ pagesRecords env ps

lemma fetchGo_request_error (env : Nat → PageResponse) (fuel page : Nat)
    (acc : List Record) (reqs : List Nat) (logs : List String) (msg : String)
    (h : env page = PageResponse.requestError msg) :
    fetchGo env (fuel + 1) page acc reqs logs =
      ⟨reqs ++ [page], logs ++ ["An error occurred: " ++ msg], .ok acc⟩ := by
  simp [fetchGo, h]

lemma fetchGo_missing_numPages (env : Nat → PageResponse) (fuel page : Nat)
    (acc : List Record) (reqs : List Nat) (logs : List String)
    (recs : Option (List Record))
    (h : env page = PageResponse.json recs none) :
    fetchGo env (fuel + 1) page acc reqs logs =
      ⟨reqs ++ [page], logs, .error "KeyError: numPages"⟩ := by
  simp [fetchGo, h]

lemma fetchGo_break (env : Nat → PageResponse) (fuel page : Nat)
    (acc : List Record) (reqs : List Nat) (logs : List String)
    (recs : Option (List Record)) (k : Int)
    (h : env page = PageResponse.json recs (some k)) (hk : (page : Int) ≥ k) :
    fetchGo env (fuel + 1) page acc reqs logs =
      ⟨reqs ++ [page], logs, .ok (acc ++ recs.getD [])⟩ := by
  simp [fetchGo, h, hk]

lemma fetchGo_run (env : Nat → PageResponse) :
    ∀ (n fuel page : Nat) (acc : List Record) (reqs : List Nat)
      (logs : List String),
    n ≤ fuel →
    (∀ i, i < n → ∃ rs k, env (page + i) = PageResponse.json rs (some k) ∧
        ((page + i : Nat) : Int) < k) →
    fetchGo env fuel page acc reqs logs =
      fetchGo env (fuel - n) (page + n)
        (acc ++ pagesRecords env (List.range' page n))
        (reqs ++ List.range' page n) logs := by
  intro n
  induction n with
  | zero =>
    intro fuel page acc reqs logs _ _
    simp [pagesRecords]
  | succ n ih =>
    intro fuel page acc reqs logs hle hclean
    cases fuel with
    | zero => omega
    | succ f =>
      obtain ⟨rs, k, henv, hlt⟩ := hclean 0 (Nat.succ_pos n)
      rw [Nat.add_zero] at henv hlt
      have hnotge : ¬ ((page : Int) ≥ k) := not_le.mpr hlt
      have hstep : fetchGo env (f + 1) page acc reqs logs =
          fetchGo env f (page + 1) (acc ++ rs.getD []) (reqs ++ [page]) logs := by
        simp [fetchGo, henv, hnotge]
      have hclean' : ∀ i, i < n →
          ∃ rs' k', env (page + 1 + i) = PageResponse.json rs' (some k') ∧
            ((page + 1 + i : Nat) : Int) < k' := by
        intro i hi
        have h2 := hclean (i + 1) (by omega)
        have harr : page + (i + 1) = page + 1 + i := by omega
        rw [harr] at h2
        exact h2
      rw [hstep, ih f (page + 1) (acc ++ rs.getD []) (reqs ++ [page]) logs
        (by omega) hclean']
      have hrange : List.range' page (n + 1) = page :: List.range' (page + 1) n :=
        List.range'_succ page n 1
      have hrecs : pageRecs env page = rs.getD [] := by simp [pageRecs, henv]
      simp [hrange, pagesRecords, hrecs, Nat.succ_sub_succ]
      have harr2 : page + (n + 1) = page + 1 + n := by omega
      rw [harr2]

lemma range'_concat_one (p : Nat) (hp : 1 ≤ p) :
    List.range' 1 (p - 1) ++ [p] = List.range' 1 p := by
  have h2 : p = (p - 1) + 1 := by omega
  have h3 : 1 + 1 * (p - 1) = p := by omega
  conv_rhs => rw [h2, List.range'_concat]
  rw [h3]

/-- Claim C1 (amended): if the pages before `p` all succeed without
terminating pagination and page `p`'s request raises a
`requests.exceptions.RequestException` (network failure, non-2xx status, or
JSON decode failure), then `get_recordings` aborts immediately: it requests
exactly pages `1..p`, prints one diagnostic line, and returns the records
accumulated from the earlier pages without raising.  (A well-formed JSON
body missing `numPages` instead raises `KeyError`, see the counterexample.) -/
theorem get_recordings_request_error_returns_partial
    (env : Nat → PageResponse) (m p : Nat) (msg : String)
    (hp : 1 ≤ p) (hpm : p ≤ m)
    (hclean : ∀ q, 1 ≤ q → q < p →
      ∃ rs k, env q = PageResponse.json rs (some k) ∧ (q : Int) < k)
    (hfail : env p = PageResponse.requestError msg) :
    get_recordings env (m : Int) =
      ⟨List.range' 1 p, ["An error occurred: " ++ msg],
        .ok (pagesRecords env (List.range' 1 (p - 1)))⟩ := by
  unfold get_recordings
  have hmn : ((m : Int)).toNat = m := by omega
  rw [hmn]
  have hclean1 : ∀ i, i < p - 1 →
      ∃ rs k, env (1 + i) = PageResponse.json rs (some k) ∧
        ((1 + i : Nat) : Int) < k := by
    intro i hi
    exact hclean (1 + i) (by omega) (by omega)
  rw [fetchGo_run env (p - 1) m 1 [] [] [] (by omega) hclean1]
  have h1p : 1 + (p - 1) = p := by omega
  rw [h1p]
  obtain ⟨t, ht⟩ : ∃ t, m - (p - 1) = t + 1 := ⟨m - p, by omega⟩
  rw [ht, fetchGo_request_error env t p _ _ _ msg hfail]
  simp [range'_concat_one p hp]

/-- Environment for the C1 witness: page 2 fails with a network error. -/
def c1Env : Nat → PageResponse := fun q =>
  if q = 2 then PageResponse.requestError "boom"
  else PageResponse.json (some [[("id", Val.s "1")]]) (some 5)

/-- Witness for C1 (amended) at a concrete input: with page 1 succeeding
(5 pages reported) and page 2 failing, `get_recordings` with `max_pages = 3`
requests pages 1 and 2, logs the failure, and returns page 1's record. -/
theorem get_recordings_request_error_returns_partial_witness :
    (1 : Nat) ≤ 2 ∧ (2 : Nat) ≤ 3 ∧ c1Env 2 = PageResponse.requestError "boom" ∧
    get_recordings c1Env 3 =
      ⟨[1, 2], ["An error occurred: boom"], .ok [[("id", Val.s "1")]]⟩ :=
  ⟨by norm_num, by norm_num, rfl,
    get_recordings_request_error_returns_partial c1Env 3 2 "boom"
      (by norm_num) (by norm_num)
      (fun q h1 h2 => by
        have hq : q = 1 := by omega
        subst hq
        exact ⟨some [[("id", Val.s "1")]], 5, rfl, by norm_num⟩)
      rfl⟩

/-- Environment for the C1 counterexample: a well-formed JSON body carrying
a recordings array but no `numPages` field. -/
def c1BadEnv : Nat → PageResponse := fun _ =>
  PageResponse.json (some [[("id", Val.s "134")]]) none

/-- Counterexample to C1 as stated: a malformed response whose JSON body is
missing the `numPages` field does NOT make `get_recordings` return the
accumulated records — `int(data["numPages"])` raises an uncaught `KeyError`
to the caller (the records accumulated from earlier pages, here `[]`, are
lost). -/
theorem get_recordings_raises_on_missing_numPages :
    (get_recordings c1BadEnv 1).outcome = Except.error "KeyError: numPages" ∧
    (get_recordings c1BadEnv 1).outcome ≠ Except.ok [] :=
  ⟨rfl, by decide⟩

/-- Claim C2 (amended): when every page reports `numPages = k` with
`k ≥ 1` and `max_pages = m ≥ 1`, `get_recordings` issues exactly
`min(k, m)` page requests, for pages `1` through `min(k, m)` in increasing
order.  (For `k = 0` the code still issues one request, see the
counterexample.) -/
theorem pagination_bound (env : Nat → PageResponse) (m k : Nat)
    (hm : 1 ≤ m) (hk : 1 ≤ k)
    (henv : ∀ p : Nat, ∃ rs, env p = PageResponse.json rs (some (k : Int))) :
    (get_recordings env (m : Int)).requested = List.range' 1 (min k m) := by
  unfold get_recordings
  have hmn : ((m : Int)).toNat = m := by omega
  rw [hmn]
  rcases le_or_lt k m with hkm | hmk
  · have hclean : ∀ i, i < k - 1 →
        ∃ rs kk, env (1 + i) = PageResponse.json rs (some kk) ∧
          ((1 + i : Nat) : Int) < kk := by
      intro i hi
      obtain ⟨rs, hrs⟩ := henv (1 + i)
      exact ⟨rs, (k : Int), hrs, by omega⟩
    rw [fetchGo_run env (k - 1) m 1 [] [] [] (by omega) hclean]
    have h1k : 1 + (k - 1) = k := by omega
    rw [h1k]
    obtain ⟨t, ht⟩ : ∃ t, m - (k - 1) = t + 1 := ⟨m - k, by omega⟩
    obtain ⟨rs, hrs⟩ := henv k
    rw [ht, fetchGo_break env t k _ _ _ rs (k : Int) hrs (by omega)]
    have hmin : min k m = k := Nat.min_eq_left hkm
    simp [hmin, range'_concat_one k hk]
  · have hclean : ∀ i, i < m →
        ∃ rs kk, env (1 + i) = PageResponse.json rs (some kk) ∧
          ((1 + i : Nat) : Int) < kk := by
      intro i hi
      obtain ⟨rs, hrs⟩ := henv (1 + i)
      exact ⟨rs, (k : Int), hrs, by omega⟩
    rw [fetchGo_run env m m 1 [] [] [] (le_refl m) hclean]
    have hmm : m - m = 0 := Nat.sub_self m
    rw [hmm]
    have hmin : min k m = m := by omega
    simp [fetchGo, hmin]

/-- Witness for C2 (amended) at a concrete input: with every page reporting
`numPages = 2` and `max_pages = 3`, exactly pages 1 and 2 are requested. -/
theorem pagination_bound_witness :
    (1 : Nat) ≤ 3 ∧ (1 : Nat) ≤ 2 ∧
    (get_recordings (fun _ => PageResponse.json (some []) (some 2)) 3).requested =
      List.range' 1 (min 2 3) :=
  ⟨by norm_num, by norm_num,
    pagination_bound (fun _ => PageResponse.json (some []) (some 2)) 3 2
      (by norm_num) (by norm_num) (fun _ => ⟨some [], rfl⟩)⟩

/-- Counterexample to C2 as stated: when every page reports `numPages = 0`
and `max_pages = 1`, the claim predicts `min(0, 1) = 0` page requests, but
the code requests page 1 before it can observe `numPages` (it requests
`[1]`, not `[]`). -/
theorem pagination_bound_fails_at_zero_numPages :
    (get_recordings (fun _ => PageResponse.json (some []) (some 0)) 1).requested ≠
      List.range' 1 (min 0 1) := by decide

lemma getCol_of_mem (header : List String) (row : List (Option Val))
    (c : String) (h : c ∈ header) : ∃ v, getCol header row c = .ok v := by
  unfold getCol
  cases hidx : header.findIdx? (fun h2 => h2 == c) with
  | none =>
    rw [List.findIdx?_eq_none_iff] at hidx
    have := hidx c h
    simp at this
  | some i => exact ⟨_, rfl⟩

lemma dlLoop_spec (env : Option Val → DlResp) (output_dir : String)
    (header : List String) (hf : "file" ∈ header) :
    ∀ (rows : List (List (Option Val))) (ws : List (String × String))
      (ls : List String),
    (∀ row ∈ rows, ∃ nm, getCol header row "file-name" = .ok (some (Val.s nm))) →
    dlLoop env output_dir header rows ws ls =
      (ws ++ dlWrites env output_dir header rows,
       ls ++ dlLogs env header rows, .ok ()) := by
  intro rows
  induction rows with
  | nil =>
    intro ws ls _
    simp [dlLoop, dlWrites, dlLogs]
  | cons row rest ih =>
    intro ws ls hnames
    obtain ⟨nm, hnm⟩ := hnames row (List.mem_cons_self row rest)
    obtain ⟨u, hu⟩ := getCol_of_mem header row "file" hf
    have hrest : ∀ r ∈ rest, ∃ nm2, getCol header r "file-name" =
        .ok (some (Val.s nm2)) :=
      fun r hr => hnames r (List.mem_cons_of_mem row hr)
    cases henv : env u with
    | ok content =>
      simp [dlLoop, dlWrites, dlLogs, hu, hnm, henv, ih _ _ hrest]
    | reqErr msg =>
      simp [dlLoop, dlWrites, dlLogs, hu, hnm, henv, ih _ _ hrest]

/-- Claim C5: inside `download_audio_files`, every row whose URL fetch
raises a `RequestException` (network failure or non-2xx status) is caught
and logged with that row's file name, and the loop continues through all
remaining rows: the call returns normally and its printed failure lines are
exactly one line per failing row, naming that row's file name, in row
order.  (Hypotheses: the `file` column exists and every row's `file-name`
cell is a string — a NaN `file-name` instead aborts the batch, see C10.) -/
theorem download_failures_logged_and_loop_continues
    (csv : CsvFile) (output_dir : String) (env : Option Val → DlResp) (fs : FS)
    (hf : "file" ∈ csv.header)
    (hnames : ∀ row ∈ csv.rows, ∃ nm, getCol csv.header row "file-name" =
      .ok (some (Val.s nm))) :
    (download_audio_files csv output_dir env fs).outcome = .ok () ∧
    (download_audio_files csv output_dir env fs).logs =
      dlLogs env csv.header csv.rows := by
  have hne : csv.header.isEmpty = false := by
    cases hh : csv.header with
    | nil => rw [hh] at hf; simp at hf
    | cons a t => simp
  unfold download_audio_files
  rw [dlLoop_spec env output_dir csv.header hf csv.rows [] [] hnames]
  simp [hne]

/-- Concrete table for the C5/C9 witnesses: two rows, full columns. -/
def sampleCsv : CsvFile :=
  ⟨["file", "file-name"],
   [[some (Val.s "http://x/a"), some (Val.s "a.mp3")],
    [some (Val.s "http://x/b"), some (Val.s "b.mp3")]]⟩

/-- Concrete network for the C5/C9 witnesses: the first row's URL fails
with an HTTP error, the second row's URL succeeds. -/
def sampleEnv : Option Val → DlResp := fun u =>
  if u = some (Val.s "http://x/a") then DlResp.reqErr "404 Client Error"
  else DlResp.ok "bytes"

lemma sampleCsv_names : ∀ row ∈ sampleCsv.rows,
    ∃ nm, getCol sampleCsv.header row "file-name" = .ok (some (Val.s nm)) := by
  intro row hr
  simp [sampleCsv] at hr
  rcases hr with h | h
  · exact ⟨"a.mp3", by rw [h]; rfl⟩
  · exact ⟨"b.mp3", by rw [h]; rfl⟩

/-- Witness for C5 at a concrete input: row 1's URL returns an HTTP 404,
row 2 succeeds; the call returns normally and logs exactly one failure
naming `a.mp3`. -/
theorem download_failures_logged_and_loop_continues_witness :
    ("file" ∈ sampleCsv.header) ∧
    (download_audio_files sampleCsv "xeno-canto/audio_files" sampleEnv ⟨[]⟩).outcome
        = .ok () ∧
    (download_audio_files sampleCsv "xeno-canto/audio_files" sampleEnv ⟨[]⟩).logs
        = ["Failed to download a.mp3: 404 Client Error"] :=
  ⟨by decide,
    (download_failures_logged_and_loop_continues sampleCsv "xeno-canto/audio_files"
      sampleEnv ⟨[]⟩ (by decide) sampleCsv_names).1,
    ((download_failures_logged_and_loop_continues sampleCsv "xeno-canto/audio_files"
      sampleEnv ⟨[]⟩ (by decide) sampleCsv_names).2).trans (by decide)⟩

/-- Claim C9: the output file of a row is written only after that row's
HTTP response has been received and checked: the written files are exactly
one per row whose URL fetch succeeded, at `{output_dir}/{file_name}` with
the response body; a row whose fetch fails contributes no file at its
output path.  (Same hypotheses as C5.) -/
theorem writes_only_on_success
    (csv : CsvFile) (output_dir : String) (env : Option Val → DlResp) (fs : FS)
    (hf : "file" ∈ csv.header)
    (hnames : ∀ row ∈ csv.rows, ∃ nm, getCol csv.header row "file-name" =
      .ok (some (Val.s nm))) :
    (download_audio_files csv output_dir env fs).writes =
      dlWrites env output_dir csv.header csv.rows := by
  have hne : csv.header.isEmpty = false := by
    cases hh : csv.header with
    | nil => rw [hh] at hf; simp at hf
    | cons a t => simp
  unfold download_audio_files
  rw [dlLoop_spec env output_dir csv.header hf csv.rows [] [] hnames]
  simp [hne]

/-- Witness for C9 at a concrete input: with row 1 failing and row 2
succeeding, exactly one file is written, row 2's, at its joined path. -/
theorem writes_only_on_success_witness :
    ("file" ∈ sampleCsv.header) ∧
    (download_audio_files sampleCsv "xeno-canto/audio_files" sampleEnv ⟨[]⟩).writes
        = [("xeno-canto/audio_files/b.mp3", "bytes")] :=
  ⟨by decide,
    (writes_only_on_success sampleCsv "xeno-canto/audio_files" sampleEnv ⟨[]⟩
      (by decide) sampleCsv_names).trans (by decide)⟩

/-- Concrete table for C10: row 1 has an empty (NaN) `file-name` cell,
row 2 is fully valid. -/
def c10Csv : CsvFile :=
  ⟨["file", "file-name"],
   [[some (Val.s "http://x/1"), none],
    [some (Val.s "http://x/2"), some (Val.s "b.mp3")]]⟩

/-- Claim C10: the per-row `except` clause catches only
`requests.exceptions.RequestException`; here row 1's `file-name` cell is
NaN, so `os.path.join(output_dir, file_name)` raises a `TypeError` that
propagates uncaught and aborts the batch: the call errors out, row 2 (whose
download would succeed) is never written, and nothing is logged. -/
theorem non_request_error_aborts_batch :
    (download_audio_files c10Csv "out" (fun _ => DlResp.ok "bytes") ⟨[]⟩).outcome
        = Except.error "TypeError: join argument must be str" ∧
    (download_audio_files c10Csv "out" (fun _ => DlResp.ok "bytes") ⟨[]⟩).writes
        = [] ∧
    (download_audio_files c10Csv "out" (fun _ => DlResp.ok "bytes") ⟨[]⟩).logs
        = [] :=
  ⟨rfl, rfl, rfl⟩

lemma flattenedRow_keys (record : Record) :
    (flattenedRow record).map Prod.fst = declaredCols := rfl

lemma flatten_record_ok (r : Record) (row : List (String × Option Val))
    (h : flatten_record r = .ok row) : row = flattenedRow r := by
  unfold flatten_record at h
  split at h
  · exact (Except.ok.inj h).symm
  · simp at h

lemma flattenRecords_ok (recs : List Record)
    (rws : List (List (String × Option Val)))
    (h : flattenRecords recs = .ok rws) : rws = recs.map flattenedRow := by
  induction recs generalizing rws with
  | nil =>
    unfold flattenRecords at h
    simp [← Except.ok.inj h]
  | cons r rest ih =>
    unfold flattenRecords at h
    cases hfr : flatten_record r with
    | error e => rw [hfr] at h; simp at h
    | ok row =>
      rw [hfr] at h
      cases hrest : flattenRecords rest with
      | error e => rw [hrest] at h; simp at h
      | ok rows =>
        rw [hrest] at h
        rw [← Except.ok.inj h, flatten_record_ok r row hfr, ih rows hrest]
        simp

/-- Claim C6: the table written by `save_recordings_to_csv` has exactly one
row per input record, in input order (row `i` is the flattening of record
`i`), every row carries exactly the declared 43-key column set in source
order, and (for a nonempty input) the header names exactly those columns.
(Hypothesis: flattening raised no exception, i.e. no record has a truthy
non-mapping `sono`/`osci`; otherwise no table is produced at all.) -/
lemma save_written_eq (recs : List Record) (filename : String) (fs : FS)
    (rws : List (List (String × Option Val)))
    (hflat : flattenRecords recs = .ok rws) :
    (save_recordings_to_csv recs filename fs).written =
      if dirOk (if fs.dirs.contains "xeno-canto" then fs
          else mkdirs fs "xeno-canto") filename
        then some (mkDataFrame rws) else none := by
  unfold save_recordings_to_csv
  simp only [hflat]
  split <;> split <;> rfl

lemma mkDataFrame_props (recs : List Record)
    (rws : List (List (String × Option Val)))
    (hrws : rws = recs.map flattenedRow) :
    (mkDataFrame rws).rows.length = recs.length ∧
    (mkDataFrame rws).rows = rws.map (fun row => row.map Prod.snd) ∧
    (∀ row ∈ rws, row.map Prod.fst = declaredCols) ∧
    (recs ≠ [] → (mkDataFrame rws).header = declaredCols) := by
  refine ⟨?_, rfl, ?_, ?_⟩
  · simp [mkDataFrame, hrws]
  · intro row hrow
    rw [hrws] at hrow
    obtain ⟨r, _, hr⟩ := List.mem_map.mp hrow
    rw [← hr]
    exact flattenedRow_keys r
  · intro hne
    cases hr : recs with
    | nil => exact absurd hr hne
    | cons r0 rest =>
      rw [hr] at hrws
      simp [mkDataFrame, hrws, flattenedRow_keys]

theorem table_rows_match_records (recs : List Record)
    (rws : List (List (String × Option Val))) (filename : String) (fs : FS)
    (file : CsvFile)
    (hflat : flattenRecords recs = .ok rws)
    (hw : (save_recordings_to_csv recs filename fs).written = some file) :
    file.rows.length = recs.length ∧
    file.rows = rws.map (fun row => row.map Prod.snd) ∧
    (∀ row ∈ rws, row.map Prod.fst = declaredCols) ∧
    (recs ≠ [] → file.header = declaredCols) := by
  have hrws : rws = recs.map flattenedRow := flattenRecords_ok recs rws hflat
  rw [save_written_eq recs filename fs rws hflat] at hw
  split at hw
  all_goals split at hw
  all_goals first
    | (have hfile : file = mkDataFrame rws := (Option.some.inj hw).symm
       subst hfile
       exact mkDataFrame_props recs rws hrws)
    | exact absurd hw (by simp)

/-- Concrete records for the C6 witness. -/
def c6Recs : List Record := [[("id", Val.s "1")], []]

/-- Witness for C6 at a concrete input: two records produce a two-row table
whose header is the declared column set. -/
theorem table_rows_match_records_witness :
    (flattenRecords c6Recs = .ok (c6Recs.map flattenedRow)) ∧
    ((save_recordings_to_csv c6Recs "xeno-canto/recordings.csv"
        ⟨["xeno-canto"]⟩).written = some (mkDataFrame (c6Recs.map flattenedRow))) ∧
    (mkDataFrame (c6Recs.map flattenedRow)).rows.length = c6Recs.length ∧
    (mkDataFrame (c6Recs.map flattenedRow)).header = declaredCols :=
  ⟨rfl, rfl,
    (table_rows_match_records c6Recs (c6Recs.map flattenedRow)
      "xeno-canto/recordings.csv" ⟨["xeno-canto"]⟩
      (mkDataFrame (c6Recs.map flattenedRow)) rfl rfl).1,
    (table_rows_match_records c6Recs (c6Recs.map flattenedRow)
      "xeno-canto/recordings.csv" ⟨["xeno-canto"]⟩
      (mkDataFrame (c6Recs.map flattenedRow)) rfl rfl).2.2.2 (by decide)⟩

/-- Removing a field from a record (making it absent). -/
def removeField (r : Record) (f : String) : Record :=
  r.filter (fun p => !(p.1 == f))

lemma rget_remove (r : Record) (f g : String) :
    rget (removeField r f) g = if g = f then none else rget r g := by
  induction r with
  | nil =>
    unfold removeField
    simp [rget]
  | cons p rest ih =>
    obtain ⟨k, v⟩ := p
    by_cases hkf : k = f
    · rw [show removeField ((k, v) :: rest) f = removeField rest f from by
        simp [removeField, List.filter_cons, hkf]]
      rw [ih]
      by_cases hgf : g = f
      · simp [hgf]
      · rw [if_neg hgf, if_neg hgf]
        have hkg : ¬ k = g := by rw [hkf]; exact fun h => hgf h.symm
        simp [rget, hkg]
    · rw [show removeField ((k, v) :: rest) f = (k, v) :: removeField rest f from by
        simp [removeField, List.filter_cons, hkf]]
      by_cases hkg : k = g
      · have hgf : ¬ g = f := by rw [← hkg]; exact hkf
        simp [rget, hkg, hgf]
      · simp [rget, hkg, ih]

lemma nestedOk_remove (r : Record) (f key : String)
    (h : nestedOk r key = true) : nestedOk (removeField r f) key = true := by
  by_cases hkf : key = f
  · unfold nestedOk
    rw [rget_remove, if_pos hkf]
  · unfold nestedOk at h ⊢
    rw [rget_remove, if_neg hkf]
    exact h

lemma nestedCell_none (r : Record) (key sub : String) (h : rget r key = none) :
    nestedCell r key sub = none := by
  simp [nestedCell, h]

lemma scalar_mem_flattenedRow (r : Record) (f : String) (hf : f ∈ scalarKeys) :
    (f, rget r f) ∈ flattenedRow r := by
  fin_cases hf <;> simp [flattenedRow]

/-- Claim C7: for every record and every optional field absent from it, the
flattened row maps that field's column to a null cell: an absent scalar
field gives a null cell, an absent `sono` gives null
`sono_small/med/large/full` cells, an absent `osci` gives null
`osci_small/med/large` cells; and absence never raises — removing any field
from a record that flattens successfully still flattens successfully. -/
theorem absent_fields_map_to_null (r : Record) (f : String) :
    (f ∈ scalarKeys → rget r f = none → (f, (none : Option Val)) ∈ flattenedRow r) ∧
    (rget r "sono" = none →
      (("sono_small", (none : Option Val)) ∈ flattenedRow r ∧
       ("sono_med", (none : Option Val)) ∈ flattenedRow r ∧
       ("sono_large", (none : Option Val)) ∈ flattenedRow r ∧
       ("sono_full", (none : Option Val)) ∈ flattenedRow r)) ∧
    (rget r "osci" = none →
      (("osci_small", (none : Option Val)) ∈ flattenedRow r ∧
       ("osci_med", (none : Option Val)) ∈ flattenedRow r ∧
       ("osci_large", (none : Option Val)) ∈ flattenedRow r)) ∧
    (flatten_record r = .ok (flattenedRow r) →
      flatten_record (removeField r f) = .ok (flattenedRow (removeField r f))) := by
  refine ⟨?_, ?_, ?_, ?_⟩
  · intro hf h
    have hm := scalar_mem_flattenedRow r f hf
    rw [h] at hm
    exact hm
  · intro h
    refine ⟨?_, ?_, ?_, ?_⟩ <;>
      · first
        | (have hm : ("sono_small", nestedCell r "sono" "small") ∈ flattenedRow r := by
            simp [flattenedRow]
           rw [nestedCell_none r "sono" "small" h] at hm
           exact hm)
        | (have hm : ("sono_med", nestedCell r "sono" "med") ∈ flattenedRow r := by
            simp [flattenedRow]
           rw [nestedCell_none r "sono" "med" h] at hm
           exact hm)
        | (have hm : ("sono_large", nestedCell r "sono" "large") ∈ flattenedRow r := by
            simp [flattenedRow]
           rw [nestedCell_none r "sono" "large" h] at hm
           exact hm)
        | (have hm : ("sono_full", nestedCell r "sono" "full") ∈ flattenedRow r := by
            simp [flattenedRow]
           rw [nestedCell_none r "sono" "full" h] at hm
           exact hm)
  · intro h
    refine ⟨?_, ?_, ?_⟩ <;>
      · first
        | (have hm : ("osci_small", nestedCell r "osci" "small") ∈ flattenedRow r := by
            simp [flattenedRow]
           rw [nestedCell_none r "osci" "small" h] at hm
           exact hm)
        | (have hm : ("osci_med", nestedCell r "osci" "med") ∈ flattenedRow r := by
            simp [flattenedRow]
           rw [nestedCell_none r "osci" "med" h] at hm
           exact hm)
        | (have hm : ("osci_large", nestedCell r "osci" "large") ∈ flattenedRow r := by
            simp [flattenedRow]
           rw [nestedCell_none r "osci" "large" h] at hm
           exact hm)
  · intro h
    unfold flatten_record at h ⊢
    split at h
    case isTrue hok =>
      rw [if_pos]
      rw [Bool.and_eq_true] at hok
      rw [Bool.and_eq_true]
      exact ⟨nestedOk_remove r f "sono" hok.1, nestedOk_remove r f "osci" hok.2⟩
    case isFalse => simp at h

/-- Concrete record for the C7 witness: only `gen` is present. -/
def c7Rec : Record := [("gen", Val.s "Turdus")]

/-- Witness for C7 at a concrete input: with `id`, `sono` and `osci`
absent, the `id` and `sono_small` cells are null, and removing `id` keeps
flattening successful. -/
theorem absent_fields_map_to_null_witness :
    ("id" ∈ scalarKeys ∧ rget c7Rec "id" = none ∧ rget c7Rec "sono" = none) ∧
    ("id", (none : Option Val)) ∈ flattenedRow c7Rec ∧
    ("sono_small", (none : Option Val)) ∈ flattenedRow c7Rec ∧
    flatten_record (removeField c7Rec "id") =
      .ok (flattenedRow (removeField c7Rec "id")) :=
  ⟨⟨by decide, rfl, rfl⟩,
    (absent_fields_map_to_null c7Rec "id").1 (by decide) rfl,
    ((absent_fields_map_to_null c7Rec "id").2.1 rfl).1,
    (absent_fields_map_to_null c7Rec "id").2.2.2 rfl⟩

/-- Claim C8: the `also` list field is rendered in its cell as the elements
joined by a comma and a space, and an absent `also` field renders as the
empty string. -/
theorem also_field_rendering (r : Record) (xs : List String) :
    (rget r "also" = some (Val.l xs) →
      ("also", some (Val.s (String.intercalate ", " xs))) ∈ flattenedRow r) ∧
    (rget r "also" = none → ("also", some (Val.s "")) ∈ flattenedRow r) := by
  constructor
  · intro h
    have hm : ("also", some (Val.s (alsoCell r))) ∈ flattenedRow r := by
      simp [flattenedRow]
    rw [show alsoCell r = String.intercalate ", " xs from by simp [alsoCell, h]] at hm
    exact hm
  · intro h
    have hm : ("also", some (Val.s (alsoCell r))) ∈ flattenedRow r := by
      simp [flattenedRow]
    rw [show alsoCell r = "" from by simp [alsoCell, h]] at hm
    exact hm

/-- Concrete record for the C8 witness. -/
def c8Rec : Record := [("also", Val.l ["Turdus merula", "Parus major"])]

/-- Witness for C8 at the spec's own example input: the `also` cell renders
as `"Turdus merula, Parus major"`. -/
theorem also_field_rendering_witness :
    rget c8Rec "also" = some (Val.l ["Turdus merula", "Parus major"]) ∧
    ("also", some (Val.s "Turdus merula, Parus major")) ∈ flattenedRow c8Rec := by
  refine ⟨rfl, ?_⟩
  have h := (also_field_rendering c8Rec ["Turdus merula", "Parus major"]).1 rfl
  have he : String.intercalate ", " ["Turdus merula", "Parus major"] =
      "Turdus merula, Parus major" := by decide
  rw [he] at h
  exact h

/-- Claim C3 (claim right, code wrong): given an empty recordings list,
`pd.DataFrame([])` has no columns at all, so the written file has an empty
header naming none of the declared columns, and `pd.read_csv` on that file
raises `EmptyDataError`, so `download_audio_files` does not complete: the
code contradicts the intended (and spec-stated) behavior of a header-only
table and a zero-row download pass. -/
theorem empty_recordings_headerless_csv_breaks_downloader :
    (save_recordings_to_csv [] "xeno-canto/recordings.csv" ⟨[]⟩).written
        = some ⟨[], []⟩ ∧
    ([] : List String) ≠ declaredCols ∧
    (download_audio_files ⟨[], []⟩ "xeno-canto/audio_files"
        (fun _ => DlResp.reqErr "unused") ⟨["xeno-canto"]⟩).outcome
        = Except.error "EmptyDataError" :=
  ⟨rfl, by decide, rfl⟩

/-- Counterexample to C4 as stated: with no directories existing and a
filename `out/recordings.csv`, the Writer does not create the missing
directory `out` (it only ever creates the hardcoded `xeno-canto`), and the
write fails. -/
theorem writer_does_not_create_filename_directory :
    ¬ ("out" ∈ (save_recordings_to_csv [] "out/recordings.csv" ⟨[]⟩).fs.dirs) ∧
    (save_recordings_to_csv [] "out/recordings.csv" ⟨[]⟩).outcome
        = Except.error "OSError" :=
  ⟨by decide, by decide⟩

lemma save_fs_eq (recs : List Record) (filename : String) (fs : FS) :
    (save_recordings_to_csv recs filename fs).fs =
      if fs.dirs.contains "xeno-canto" then fs else mkdirs fs "xeno-canto" := by
  unfold save_recordings_to_csv
  split <;> split
  all_goals try dsimp only
  all_goals first
    | rfl
    | (split <;> rfl)

lemma download_fs_eq (csv : CsvFile) (output_dir : String)
    (env : Option Val → DlResp) (fs : FS) (hh : csv.header.isEmpty = false) :
    (download_audio_files csv output_dir env fs).fs =
      if fs.dirs.contains output_dir then fs else mkdirs fs output_dir := by
  unfold download_audio_files
  simp [hh]

/-- Claim C4 (amended): the Writer always ensures the fixed directory
`xeno-canto` exists (creating it when missing) but never the directory of
its `filename` argument; the Downloader, once the table has been read
successfully, creates its missing `output_dir` together with all missing
parents before downloading. -/
theorem directory_creation_behavior (recs : List Record) (filename : String)
    (fs : FS) (csv : CsvFile) (output_dir : String) (env : Option Val → DlResp)
    (fs2 : FS) (hheader : csv.header ≠ [])
    (hmiss : fs2.dirs.contains output_dir = false) :
    "xeno-canto" ∈ (save_recordings_to_csv recs filename fs).fs.dirs ∧
    ∀ d ∈ pathPrefixes output_dir,
      d ∈ (download_audio_files csv output_dir env fs2).fs.dirs := by
  constructor
  · rw [save_fs_eq]
    by_cases hc : fs.dirs.contains "xeno-canto" = true
    · rw [if_pos hc]
      simpa using hc
    · rw [if_neg hc]
      exact List.mem_append_right _ (by decide)
  · intro d hd
    have hh : csv.header.isEmpty = false := by
      cases hcsv : csv.header with
      | nil => exact absurd hcsv hheader
      | cons a t => simp
    rw [download_fs_eq csv output_dir env fs2 hh, hmiss]
    simp only [Bool.false_eq_true, if_false]
    exact List.mem_append_right _ hd

/-- Witness for C4 (amended) at concrete inputs: the Writer on an empty
filesystem creates `xeno-canto`; the Downloader with `output_dir = "a/b"`
creates both `a` and `a/b`. -/
theorem directory_creation_behavior_witness :
    (sampleCsv.header ≠ [] ∧ (⟨[]⟩ : FS).dirs.contains "a/b" = false) ∧
    "xeno-canto" ∈ (save_recordings_to_csv [] "xeno-canto/recordings.csv"
        ⟨[]⟩).fs.dirs ∧
    "a" ∈ (download_audio_files sampleCsv "a/b" (fun _ => DlResp.ok "x")
        ⟨[]⟩).fs.dirs ∧
    "a/b" ∈ (download_audio_files sampleCsv "a/b" (fun _ => DlResp.ok "x")
        ⟨[]⟩).fs.dirs :=
  ⟨⟨by decide, rfl⟩,
    (directory_creation_behavior [] "xeno-canto/recordings.csv" ⟨[]⟩ sampleCsv
      "a/b" (fun _ => DlResp.ok "x") ⟨[]⟩ (by decide) rfl).1,
    (directory_creation_behavior [] "xeno-canto/recordings.csv" ⟨[]⟩ sampleCsv
      "a/b" (fun _ => DlResp.ok "x") ⟨[]⟩ (by decide) rfl).2 "a" (by decide),
    (directory_creation_behavior [] "xeno-canto/recordings.csv" ⟨[]⟩ sampleCsv
      "a/b" (fun _ => DlResp.ok "x") ⟨[]⟩ (by decide) rfl).2 "a/b" (by decide)⟩

end XC
